import Mathlib

/-!
Verification of `server.py`, a minimal static-file HTTP server.

The Python source is shallowly embedded: Python strings become Lean `String`
(compared through their character lists), the MIME-guessing method and the
CORS header injection become pure functions, and the stateful start-up and
command-line code becomes functions from an explicit environment (filesystem
facts and the outcome of the socket operations) to the list of printed lines,
the exit status and control-flow flags.
-/

namespace Server

/-- Python `path.endswith(suffix)`: the suffix test on the character lists. -/
def py_endswith (path suffix : String) : Bool :=
  suffix.data.isSuffixOf path.data

/-- Python truthiness fallback `m or d` for an optional string `m`: `None` and
the empty string are falsy, any other string is returned itself. -/
def py_or_else (m : Option String) (d : String) : String :=
  match m with
  | none => d
  | some s => if s = "" then d else s

/-- `CustomHTTPRequestHandler.guess_type`, embedded from `server.py` lines
28-42.  `lookup` stands for the general extension-to-MIME table consulted by
`mimetypes.guess_type` (returning `none` when it has no match); the four
special suffix rules are checked in source order and override it. -/
def guess_type (lookup : String → Option String) (path : String) : String :=
  let mimetype := lookup path
  if py_endswith path ".js" then "text/javascript"
  else if py_endswith path ".css" then "text/css"
  else if py_endswith path ".html" then "text/html; charset=utf-8"
  else if py_endswith path ".json" then "application/json"
  else py_or_else mimetype "application/octet-stream"

theorem py_endswith_iff {path suffix : String} :
    py_endswith path suffix = true ↔ suffix.data <:+ path.data := by
  simp [py_endswith, List.isSuffixOf_iff_suffix]

theorem py_endswith_false {path t : String} (h : ¬ t.data <:+ path.data) :
    py_endswith path t = false := by
  rw [Bool.eq_false_iff, Ne, py_endswith_iff]
  exact h

/-- Two lists that cannot be suffixes of one another are never both suffixes
of the same list. -/
theorem not_suffix_of_both {s t path : List Char}
    (hst : ¬ s <:+ t) (hts : ¬ t <:+ s) (hs : s <:+ path) : ¬ t <:+ path :=
  fun ht => (List.suffix_or_suffix_of_suffix hs ht).elim hst hts

/-- If a suffix of `path` lowercases to `t`, and the lowercase-stable list `u`
is suffix-incomparable with `t`, then `u` is not a suffix of `path`. -/
theorem not_suffix_of_case_variant {s t u path : List Char}
    (hs : s <:+ path) (hlow : s.map Char.toLower = t)
    (hu : u.map Char.toLower = u)
    (h1 : ¬ t <:+ u) (h2 : ¬ u <:+ t) : ¬ u <:+ path := by
  intro hu'
  rcases List.suffix_or_suffix_of_suffix hs hu' with h | h
  · have hm := List.IsSuffix.map Char.toLower h
    rw [hlow, hu] at hm
    exact h1 hm
  · have hm := List.IsSuffix.map Char.toLower h
    rw [hlow, hu] at hm
    exact h2 hm

/-- If a suffix `s` of `path` lowercases to `u` but differs from `u`, then `u`
itself is not a suffix of `path`. -/
theorem not_suffix_of_case_variant_self {s u path : List Char}
    (hs : s <:+ path) (hlow : s.map Char.toLower = u) (hne : s ≠ u) :
    ¬ u <:+ path := by
  intro hu'
  have hlen : s.length = u.length := by rw [← hlow, List.length_map]
  rcases List.suffix_or_suffix_of_suffix hs hu' with h | h
  · exact hne (h.eq_of_length hlen)
  · exact hne (h.eq_of_length hlen.symm).symm

/-- Evaluation of `guess_type` when none of the four special suffix rules
fires: the general lookup's answer goes through Python's `or` fallback. -/
theorem guess_type_no_special (lookup : String → Option String) (path : String)
    (hjs : py_endswith path ".js" = false)
    (hcss : py_endswith path ".css" = false)
    (hhtml : py_endswith path ".html" = false)
    (hjson : py_endswith path ".json" = false) :
    (lookup path = none → guess_type lookup path = "application/octet-stream") ∧
    (∀ t, lookup path = some t → t ≠ "" → guess_type lookup path = t) := by
  constructor
  · intro h
    simp [guess_type, hjs, hcss, hhtml, hjson, h, py_or_else]
  · intro t h ht
    simp [guess_type, hjs, hcss, hhtml, hjson, h, py_or_else, ht]

/-- Claim C1: for every request path ending in one of the four supported
suffixes, `guess_type` returns exactly the content type of the MIME inference
policy — `.js` gives `text/javascript`, `.css` gives `text/css`, `.html`
gives `text/html; charset=utf-8`, `.json` gives `application/json` —
whatever the general extension-to-MIME lookup would return for that path. -/
theorem guess_type_special_suffixes (lookup : String → Option String) (path : String) :
    (py_endswith path ".js" = true → guess_type lookup path = "text/javascript") ∧
    (py_endswith path ".css" = true → guess_type lookup path = "text/css") ∧
    (py_endswith path ".html" = true → guess_type lookup path = "text/html; charset=utf-8") ∧
    (py_endswith path ".json" = true → guess_type lookup path = "application/json") := by
  refine ⟨fun h => ?_, fun h => ?_, fun h => ?_, fun h => ?_⟩
  · simp [guess_type, h]
  · have hjs : py_endswith path ".js" = false :=
      py_endswith_false
        (not_suffix_of_both (by decide) (by decide) (py_endswith_iff.mp h))
    simp [guess_type, h, hjs]
  · have hjs : py_endswith path ".js" = false :=
      py_endswith_false
        (not_suffix_of_both (by decide) (by decide) (py_endswith_iff.mp h))
    have hcss : py_endswith path ".css" = false :=
      py_endswith_false
        (not_suffix_of_both (by decide) (by decide) (py_endswith_iff.mp h))
    simp [guess_type, h, hjs, hcss]
  · have hjs : py_endswith path ".js" = false :=
      py_endswith_false
        (not_suffix_of_both (by decide) (by decide) (py_endswith_iff.mp h))
    have hcss : py_endswith path ".css" = false :=
      py_endswith_false
        (not_suffix_of_both (by decide) (by decide) (py_endswith_iff.mp h))
    have hhtml : py_endswith path ".html" = false :=
      py_endswith_false
        (not_suffix_of_both (by decide) (by decide) (py_endswith_iff.mp h))
    simp [guess_type, h, hjs, hcss, hhtml]

/-- Witness for C1 at concrete inputs: each of the four suffixes at a concrete
path, with a lookup that would answer `text/plain` everywhere, and the special
rule overriding it. -/
theorem guess_type_special_suffixes_witness :
    guess_type (fun _ => some "text/plain") "a.js" = "text/javascript" ∧
    guess_type (fun _ => some "text/plain") "a.css" = "text/css" ∧
    guess_type (fun _ => some "text/plain") "a.html" = "text/html; charset=utf-8" ∧
    guess_type (fun _ => some "text/plain") "a.json" = "application/json" :=
  ⟨(guess_type_special_suffixes (fun _ => some "text/plain") "a.js").1 (by decide),
   (guess_type_special_suffixes (fun _ => some "text/plain") "a.css").2.1 (by decide),
   (guess_type_special_suffixes (fun _ => some "text/plain") "a.html").2.2.1 (by decide),
   (guess_type_special_suffixes (fun _ => some "text/plain") "a.json").2.2.2 (by decide)⟩

/-- Claim C7: for every path ending in none of the four special suffixes,
`guess_type` returns the general extension-to-MIME lookup's result for that
path, or `application/octet-stream` when that lookup yields no match.  (The
general table never answers the empty string, reflected in the `t ≠ ""` side
condition: Python's `or` would also replace an empty string.) -/
theorem guess_type_general_fallback (lookup : String → Option String) (path : String)
    (hjs : py_endswith path ".js" = false)
    (hcss : py_endswith path ".css" = false)
    (hhtml : py_endswith path ".html" = false)
    (hjson : py_endswith path ".json" = false) :
    (lookup path = none → guess_type lookup path = "application/octet-stream") ∧
    (∀ t, lookup path = some t → t ≠ "" → guess_type lookup path = t) :=
  guess_type_no_special lookup path hjs hcss hhtml hjson

/-- Witness for C7 at concrete inputs: a path with no special suffix, once
with a matching lookup and once with an empty lookup. -/
theorem guess_type_general_fallback_witness :
    guess_type (fun _ => some "image/png") "a.png" = "image/png" ∧
    guess_type (fun _ => none) "a.png" = "application/octet-stream" :=
  ⟨(guess_type_general_fallback (fun _ => some "image/png") "a.png"
      (by decide) (by decide) (by decide) (by decide)).2
      "image/png" rfl (by decide),
   (guess_type_general_fallback (fun _ => none) "a.png"
      (by decide) (by decide) (by decide) (by decide)).1 rfl⟩

/-- Claim C10: the special-suffix rules match case-sensitively.  If a path
ends in a suffix `s` that differs from one of `.js`, `.css`, `.html`, `.json`
only in letter case (its lowercasing is one of the four but `s` itself is
none of them), then no special rule fires and `guess_type` returns the
general lookup's result, or `application/octet-stream` when that lookup
yields no match. -/
theorem guess_type_case_sensitive (lookup : String → Option String) (path s : String)
    (hlow : s.data.map Char.toLower = ".js".data ∨
            s.data.map Char.toLower = ".css".data ∨
            s.data.map Char.toLower = ".html".data ∨
            s.data.map Char.toLower = ".json".data)
    (hne : s ≠ ".js" ∧ s ≠ ".css" ∧ s ≠ ".html" ∧ s ≠ ".json")
    (hsfx : py_endswith path s = true) :
    (lookup path = none → guess_type lookup path = "application/octet-stream") ∧
    (∀ t, lookup path = some t → t ≠ "" → guess_type lookup path = t) := by
  have hs : s.data <:+ path.data := py_endswith_iff.mp hsfx
  have hdne : s.data ≠ ".js".data ∧ s.data ≠ ".css".data ∧
      s.data ≠ ".html".data ∧ s.data ≠ ".json".data :=
    ⟨fun hd => hne.1 (String.ext hd), fun hd => hne.2.1 (String.ext hd),
     fun hd => hne.2.2.1 (String.ext hd), fun hd => hne.2.2.2 (String.ext hd)⟩
  have hfour : ¬ ".js".data <:+ path.data ∧ ¬ ".css".data <:+ path.data ∧
      ¬ ".html".data <:+ path.data ∧ ¬ ".json".data <:+ path.data := by
    rcases hlow with h | h | h | h
    · exact ⟨not_suffix_of_case_variant_self hs h hdne.1,
        not_suffix_of_case_variant hs h (by decide) (by decide) (by decide),
        not_suffix_of_case_variant hs h (by decide) (by decide) (by decide),
        not_suffix_of_case_variant hs h (by decide) (by decide) (by decide)⟩
    · exact ⟨not_suffix_of_case_variant hs h (by decide) (by decide) (by decide),
        not_suffix_of_case_variant_self hs h hdne.2.1,
        not_suffix_of_case_variant hs h (by decide) (by decide) (by decide),
        not_suffix_of_case_variant hs h (by decide) (by decide) (by decide)⟩
    · exact ⟨not_suffix_of_case_variant hs h (by decide) (by decide) (by decide),
        not_suffix_of_case_variant hs h (by decide) (by decide) (by decide),
        not_suffix_of_case_variant_self hs h hdne.2.2.1,
        not_suffix_of_case_variant hs h (by decide) (by decide) (by decide)⟩
    · exact ⟨not_suffix_of_case_variant hs h (by decide) (by decide) (by decide),
        not_suffix_of_case_variant hs h (by decide) (by decide) (by decide),
        not_suffix_of_case_variant hs h (by decide) (by decide) (by decide),
        not_suffix_of_case_variant_self hs h hdne.2.2.2⟩
  exact guess_type_no_special lookup path
    (py_endswith_false hfour.1) (py_endswith_false hfour.2.1)
    (py_endswith_false hfour.2.2.1) (py_endswith_false hfour.2.2.2)

/-- Witness for C10 at concrete inputs: a path ending in `.JS` (a case variant
of `.js`) falls through to the general lookup fallback. -/
theorem guess_type_case_sensitive_witness :
    guess_type (fun _ => none) "a.JS" = "application/octet-stream" :=
  (guess_type_case_sensitive (fun _ => none) "a.JS" ".JS"
      (Or.inl (by decide))
      ⟨by decide, by decide, by decide, by decide⟩
      (by decide)).1 rfl

/-- An HTTP response being assembled: its status code and the header lines
queued so far, in send order. -/
structure Response where
  status : Nat
  headers : List (String × String)

/-- `send_header`: queue one header line on the response. -/
def send_header (r : Response) (keyword value : String) : Response :=
  { r with headers := r.headers ++ [(keyword, value)] }

/-- `CustomHTTPRequestHandler.end_headers`, embedded from `server.py` lines
21-26: send the three CORS headers, then flush the block via the superclass
`end_headers`. -/
def end_headers (r : Response) : Response :=
  send_header (send_header (send_header r
    "Access-Control-Allow-Origin" "*")
    "Access-Control-Allow-Methods" "GET, POST, OPTIONS")
    "Access-Control-Allow-Headers" "Content-Type"

/-- Every response the underlying `http.server` machinery writes — success or
error path, `send_error` for 404 included — finalizes its header block
through the handler's `end_headers`; a written response is therefore
`end_headers` applied to the status and headers queued so far. -/
def write_response (status : Nat) (base : List (String × String)) : Response :=
  end_headers { status := status, headers := base }

/-- Claim C2: every response the server writes, whatever its status code (404
and other error responses included), carries all three CORS headers. -/
theorem cors_headers_on_every_response (status : Nat) (base : List (String × String)) :
    ("Access-Control-Allow-Origin", "*") ∈ (write_response status base).headers ∧
    ("Access-Control-Allow-Methods", "GET, POST, OPTIONS") ∈ (write_response status base).headers ∧
    ("Access-Control-Allow-Headers", "Content-Type") ∈ (write_response status base).headers ∧
    (write_response status base).status = status := by
  simp [write_response, end_headers, send_header]

/-- Outcome of the guarded body of `start_server` (its `try` block): the
server either serves until Ctrl+C (`interrupted`), or raises an `OSError`
with a numeric `errno` while creating the listening socket (`osError`), or
raises some other exception (`exn`).  The message field is the exception's
printed form. -/
inductive TryOutcome where
  | interrupted
  | osError (errno : Nat) (msg : String)
  | exn (msg : String)

/-- Environment `start_server` runs in: whether `index.html` exists in the
current directory, the current working directory, its immediate entries, and
the outcome of the socket operations. -/
structure Env where
  indexExists : Bool
  cwd : String
  entries : List String
  outcome : TryOutcome

/-- Result of running `start_server`: the console lines in print order, and
whether the accept loop (`serve_forever`) was entered. -/
structure RunResult where
  output : List String
  enteredLoop : Bool

/-- Start-up diagnostics, `server.py` lines 52-57: when `index.html` is
missing, warn, print the current directory, and print one line per entry. -/
def startup_diag (env : Env) : List String :=
  if env.indexExists then []
  else "警告: 当前目录中没有找到 index.html 文件" ::
       ("当前目录: " ++ env.cwd) ::
       "目录内容:" ::
       env.entries.map (fun item => "  " ++ item)

/-- `server.py` lines 59-78 after the diagnostics: on success the banner, the
serve loop and the interrupt farewell; otherwise the matching exception
handler's output.  The flag records whether `serve_forever` ran. -/
def serve_phase (port : Int) (env : Env) : List String × Bool :=
  match env.outcome with
  | .interrupted =>
      (["\n=== HTTP服务器启动成功 ===",
        "服务器地址: http://localhost:" ++ toString port,
        "服务目录: " ++ env.cwd,
        "按 Ctrl+C 停止服务器\n",
        "\n服务器已停止"], true)
  | .osError errno msg =>
      if errno = 10048 then
        (["错误: 端口 " ++ toString port ++ " 已被占用",
          "请尝试使用其他端口，例如: python server.py " ++ toString (port + 1)], false)
      else
        (["启动服务器时出错: " ++ msg], false)
  | .exn msg =>
      (["未知错误: " ++ msg], false)

/-- `start_server`, embedded from `server.py` lines 48-78. -/
def start_server (port : Int) (env : Env) : RunResult :=
  { output := startup_diag env ++ (serve_phase port env).1,
    enteredLoop := (serve_phase port env).2 }

/-- Concrete bind failure as it happens on a POSIX system: address already in
use surfaces as an `OSError` with errno 98, not the Windows code 10048 that
`server.py` tests for. -/
def envAddrInUse98 : Env :=
  { indexExists := true, cwd := "/srv/app", entries := [],
    outcome := .osError 98 "[Errno 98] Address already in use" }

/-- Counterexample to C3 as stated: an address-already-in-use bind failure on
a POSIX system carries errno 98, and `start_server` then prints only the
generic start-up error line — the occupied-port message naming port 8000
never appears, and no port + 1 suggestion is made. -/
theorem bind_failure_message_counterexample :
    "错误: 端口 8000 已被占用" ∉ (start_server 8000 envAddrInUse98).output ∧
    (start_server 8000 envAddrInUse98).output =
      ["启动服务器时出错: [Errno 98] Address already in use"] ∧
    (start_server 8000 envAddrInUse98).enteredLoop = false := by
  refine ⟨by decide, by decide, by decide⟩

/-- Claim C3 amended: when binding fails with an `OSError` carrying errno
10048 — the Windows address-in-use code, the only one `server.py`
recognises — the server prints the occupied-port message naming the port and
the suggestion naming port + 1, and does not enter the accept loop; a bind
failure under any other errno (e.g. 98, the POSIX address-in-use code)
prints only the generic start-up error message, likewise without entering
the accept loop. -/
theorem bind_failure_message (port : Int) (env : Env) (errno : Nat) (msg : String)
    (h : env.outcome = .osError errno msg) :
    (start_server port env).enteredLoop = false ∧
    (errno = 10048 →
      ("错误: 端口 " ++ toString port ++ " 已被占用") ∈ (start_server port env).output ∧
      ("请尝试使用其他端口，例如: python server.py " ++ toString (port + 1)) ∈
        (start_server port env).output) ∧
    (errno ≠ 10048 →
      ("启动服务器时出错: " ++ msg) ∈ (start_server port env).output) := by
  by_cases he : errno = 10048
  · subst he
    refine ⟨?_, fun _ => ⟨?_, ?_⟩, fun hne => absurd rfl hne⟩ <;>
      simp [start_server, serve_phase, h]
  · refine ⟨?_, fun he10 => absurd he10 he, fun _ => ?_⟩ <;>
      simp [start_server, serve_phase, h, he]

/-- Concrete Windows-style bind failure, errno 10048. -/
def envAddrInUse10048 : Env :=
  { indexExists := true, cwd := "/srv/app", entries := [],
    outcome := .osError 10048 "[WinError 10048] Address already in use" }

/-- Witness for the amended C3 at a concrete input: port 8000 occupied with
errno 10048 gives the occupied-port line, the port-8001 suggestion, and no
accept loop. -/
theorem bind_failure_message_witness :
    (start_server 8000 envAddrInUse10048).enteredLoop = false ∧
    "错误: 端口 8000 已被占用" ∈ (start_server 8000 envAddrInUse10048).output ∧
    "请尝试使用其他端口，例如: python server.py 8001" ∈
      (start_server 8000 envAddrInUse10048).output := by
  have h := bind_failure_message 8000 envAddrInUse10048 10048
    "[WinError 10048] Address already in use" rfl
  exact ⟨h.1, (h.2.1 rfl).1, (h.2.1 rfl).2⟩

/-- Digit-run parser underlying the model of Python `int()`: a nonempty
all-digit character list evaluates as a decimal numeral. -/
def py_digits (cs : List Char) : Option Nat :=
  if cs ≠ [] ∧ cs.all Char.isDigit then
    some (cs.foldl (fun acc c => 10 * acc + (c.toNat - '0'.toNat)) 0)
  else none

/-- Python `int()` on a decimal string: an optional sign followed by a
nonempty run of ASCII digits.  (CPython additionally strips surrounding
whitespace and allows digit-group underscores; such inputs are not
modelled.)  `none` models the `ValueError` raised on any other string. -/
def py_int (s : String) : Option Int :=
  match s.data with
  | '-' :: rest => (py_digits rest).map (fun n => -(n : Int))
  | '+' :: rest => (py_digits rest).map (fun n => (n : Int))
  | cs => (py_digits cs).map (fun n => (n : Int))

/-- Result of running the `__main__` block: the console lines, the process
exit status, and whether `start_server` — and with it the socket creation —
was reached. -/
structure MainResult where
  output : List String
  exitCode : Nat
  bindAttempted : Bool

/-- The `__main__` block, embedded from `server.py` lines 80-91.  `args` is
`sys.argv[1:]`.  A present but non-numeric first argument prints the usage
message and exits with status 1; otherwise `start_server` runs with the
parsed (or default 8000) port, and since `start_server` catches every
exception, the script then falls off the end of the file and the process
exits with status 0. -/
def main_py (args : List String) (env : Env) : MainResult :=
  match args with
  | [] =>
      { output := (start_server 8000 env).output, exitCode := 0, bindAttempted := true }
  | a :: _ =>
      match py_int a with
      | none =>
          { output := ["错误: 端口号必须是数字"], exitCode := 1, bindAttempted := false }
      | some p =>
          { output := (start_server p env).output, exitCode := 0, bindAttempted := true }

/-- Counterexample to C4 as stated: a bind failure — even one the code
recognises as address-in-use, errno 10048 — is an unrecoverable startup
error, yet the process exits with status 0, not a non-zero status, because
`start_server` swallows the exception and the script ends normally. -/
theorem exit_code_counterexample :
    "错误: 端口 8000 已被占用" ∈ (main_py ["8000"] envAddrInUse10048).output ∧
    (main_py ["8000"] envAddrInUse10048).exitCode = 0 := by
  refine ⟨by decide, by decide⟩

/-- Claim C4 amended: the exit status is 1 exactly when a command-line port
argument is present and non-numeric, in which case the numeric-port-required
message is printed; in every other case — clean interrupt shutdown, bind
failure and any other startup error alike — the process exits with status 0,
and a message is always printed before exiting (the output is nonempty). -/
theorem main_exit_codes (args : List String) (env : Env) :
    ((main_py args env).exitCode = 1 ↔
      ∃ a rest, args = a :: rest ∧ py_int a = none) ∧
    ((main_py args env).exitCode = 1 →
      "错误: 端口号必须是数字" ∈ (main_py args env).output) ∧
    (args = [] → (main_py args env).exitCode = 0) ∧
    (∀ a rest, args = a :: rest → ∀ p : Int, py_int a = some p →
      (main_py args env).exitCode = 0) ∧
    (main_py args env).output ≠ [] := by
  have hserve : ∀ port : Int, (serve_phase port env).1 ≠ [] := by
    intro port
    rcases env with ⟨ie, cwd, entries, outcome⟩
    cases outcome with
    | interrupted => simp [serve_phase]
    | osError errno msg =>
        by_cases he : errno = 10048 <;> simp [serve_phase, he]
    | exn msg => simp [serve_phase]
  have hout : ∀ port : Int, (start_server port env).output ≠ [] := by
    intro port h
    rw [start_server] at h
    exact hserve port (List.append_eq_nil.mp h).2
  match args with
  | [] =>
      refine ⟨?_, ?_, ?_, ?_, ?_⟩
      · simp [main_py]
      · intro h
        simp [main_py] at h
      · intro _
        simp [main_py]
      · intro a rest heq
        simp at heq
      · simpa [main_py] using hout 8000
  | a :: rest =>
      cases hp : py_int a with
      | none =>
          refine ⟨?_, ?_, ?_, ?_, ?_⟩
          · simp [main_py, hp]
          · intro _
            simp [main_py, hp]
          · intro h
            simp at h
          · intro a' rest' heq p hsome
            cases heq
            rw [hp] at hsome
            cases hsome
          · simp [main_py, hp]
      | some p =>
          refine ⟨?_, ?_, ?_, ?_, ?_⟩
          · simp only [main_py, hp]
            constructor
            · intro h
              cases h
            · rintro ⟨a', rest', heq, hnone⟩
              cases heq
              rw [hp] at hnone
              cases hnone
          · intro h
            simp [main_py, hp] at h
          · intro h
            simp at h
          · intro a' rest' heq p' hsome
            simp [main_py, hp]
          · simpa [main_py, hp] using hout p

/-- Witness for the amended C4 at concrete inputs: the argument `abc` exits
with status 1 and prints the usage message; the bind-failure run with the
numeric argument `8000` exits with status 0 and nonempty output. -/
theorem main_exit_codes_witness :
    (main_py ["abc"] envAddrInUse10048).exitCode = 1 ∧
    "错误: 端口号必须是数字" ∈ (main_py ["abc"] envAddrInUse10048).output ∧
    (main_py ["8000"] envAddrInUse10048).exitCode = 0 ∧
    (main_py ["8000"] envAddrInUse10048).output ≠ [] := by
  refine ⟨?_, (main_exit_codes ["abc"] envAddrInUse10048).2.1 (by decide),
    (main_exit_codes ["8000"] envAddrInUse10048).2.2.2.1 "8000" [] rfl 8000 (by decide),
    (main_exit_codes ["8000"] envAddrInUse10048).2.2.2.2⟩
  exact ((main_exit_codes ["abc"] envAddrInUse10048).1).mpr ⟨"abc", [], rfl, by decide⟩

/-- Claim C5: a non-numeric port argument prints the numeric-port-required
message and makes the process exit with status 1 before any server action:
`start_server` never runs, so no socket creation or bind is attempted. -/
theorem nonnumeric_port_exits_one (a : String) (rest : List String) (env : Env)
    (h : py_int a = none) :
    main_py (a :: rest) env =
      { output := ["错误: 端口号必须是数字"], exitCode := 1, bindAttempted := false } := by
  simp [main_py, h]

/-- Witness for C5 at a concrete input: the argument `abc`. -/
theorem nonnumeric_port_exits_one_witness :
    main_py ["abc"] envAddrInUse98 =
      { output := ["错误: 端口号必须是数字"], exitCode := 1, bindAttempted := false } :=
  nonnumeric_port_exits_one "abc" [] envAddrInUse98 (by decide)

/-- Concrete environment for an out-of-range port: CPython's socket layer
raises `OverflowError` — not an `OSError` — when the port is outside
0..65535, so the generic `except Exception` handler fires. -/
def envOverflow : Env :=
  { indexExists := true, cwd := "/srv/app", entries := [],
    outcome := .exn "OverflowError: bind(): port must be 0-65535." }

/-- Counterexample to C6 as stated: `99999` is an integer outside the valid
TCP port range, yet the script parses it, reaches `start_server` (so socket
creation is attempted), prints the generic unknown-error line for the
resulting `OverflowError`, and exits with status 0 — there is no fail-fast
usage error and no non-zero exit. -/
theorem out_of_range_port_counterexample :
    py_int "99999" = some 99999 ∧
    (main_py ["99999"] envOverflow).bindAttempted = true ∧
    (main_py ["99999"] envOverflow).exitCode = 0 ∧
    (main_py ["99999"] envOverflow).output =
      ["未知错误: OverflowError: bind(): port must be 0-65535."] := by
  refine ⟨by decide, by decide, by decide, by decide⟩

/-- Claim C6 amended: the script performs no port-range validation.  Every
integer argument, also one outside the valid TCP port range 0..65535,
parses successfully, `start_server` runs (the socket creation is attempted)
and the process exits with status 0; when that attempt raises a non-OSError
exception, the unknown-error message is the printed diagnostic. -/
theorem out_of_range_port_not_validated (a : String) (rest : List String)
    (env : Env) (p : Int)
    (hp : py_int a = some p) (_hrange : p < 0 ∨ 65535 < p) :
    (main_py (a :: rest) env).bindAttempted = true ∧
    (main_py (a :: rest) env).exitCode = 0 ∧
    (∀ msg, env.outcome = .exn msg →
      ("未知错误: " ++ msg) ∈ (main_py (a :: rest) env).output) := by
  refine ⟨by simp [main_py, hp], by simp [main_py, hp], ?_⟩
  intro msg hmsg
  simp [main_py, hp, start_server, serve_phase, hmsg]

/-- Witness for the amended C6 at a concrete input: the out-of-range argument
`99999` with the OverflowError outcome. -/
theorem out_of_range_port_not_validated_witness :
    (main_py ["99999"] envOverflow).bindAttempted = true ∧
    (main_py ["99999"] envOverflow).exitCode = 0 ∧
    "未知错误: OverflowError: bind(): port must be 0-65535." ∈
      (main_py ["99999"] envOverflow).output := by
  have h := out_of_range_port_not_validated "99999" [] envOverflow 99999
    (by decide) (Or.inr (by decide))
  exact ⟨h.1, h.2.1, h.2.2 "OverflowError: bind(): port must be 0-65535." rfl⟩

/-- The first character of an appended string is the first character of its
nonempty left part. -/
theorem head_of_append (a b : String) (c : Char) (h : a.data.head? = some c) :
    (a ++ b).data.head? = some c := by
  rw [String.data_append]
  cases hd : a.data with
  | nil => simp [hd] at h
  | cons x xs =>
      simp only [hd, List.head?_cons, Option.some.injEq] at h
      simp [h]

/-- Every line the post-diagnostics phase prints starts with one of seven
characters, none of which starts a diagnostic line. -/
theorem serve_phase_heads (port : Int) (env : Env) (line : String)
    (h : line ∈ (serve_phase port env).1) :
    line.data.head? = some '\n' ∨ line.data.head? = some '服' ∨
    line.data.head? = some '按' ∨ line.data.head? = some '错' ∨
    line.data.head? = some '请' ∨ line.data.head? = some '启' ∨
    line.data.head? = some '未' := by
  rcases env with ⟨ie, cwd, entries, outcome⟩
  cases outcome with
  | interrupted =>
      simp only [serve_phase, List.mem_cons, List.not_mem_nil, or_false] at h
      rcases h with rfl | rfl | rfl | rfl | rfl
      · exact Or.inl (by decide)
      · exact Or.inr (Or.inl (head_of_append _ _ '服' (by decide)))
      · exact Or.inr (Or.inl (head_of_append _ _ '服' (by decide)))
      · exact Or.inr (Or.inr (Or.inl (by decide)))
      · exact Or.inl (by decide)
  | osError errno msg =>
      by_cases he : errno = 10048
      · simp [serve_phase, he] at h
        rcases h with rfl | rfl
        · exact Or.inr (Or.inr (Or.inr (Or.inl (head_of_append _ _ '错'
            (head_of_append "错误: 端口 " (toString port) '错' (by decide))))))
        · exact Or.inr (Or.inr (Or.inr (Or.inr (Or.inl
            (head_of_append _ _ '请' (by decide))))))
      · simp [serve_phase, he] at h
        subst h
        exact Or.inr (Or.inr (Or.inr (Or.inr (Or.inr (Or.inl
          (head_of_append _ _ '启' (by decide)))))))
  | exn msg =>
      simp only [serve_phase, List.mem_cons, List.not_mem_nil, or_false] at h
      subst h
      exact Or.inr (Or.inr (Or.inr (Or.inr (Or.inr (Or.inr
        (head_of_append _ _ '未' (by decide)))))))

/-- A line whose first character is none of the seven post-diagnostics
starters is never printed by the post-diagnostics phase. -/
theorem not_in_serve_phase (port : Int) (env : Env) (line : String) (c : Char)
    (hc : line.data.head? = some c)
    (h1 : c ≠ '\n') (h2 : c ≠ '服') (h3 : c ≠ '按') (h4 : c ≠ '错')
    (h5 : c ≠ '请') (h6 : c ≠ '启') (h7 : c ≠ '未') :
    line ∉ (serve_phase port env).1 := by
  intro hmem
  rcases serve_phase_heads port env line hmem with h | h | h | h | h | h | h
  · exact h1 (Option.some.inj (hc.symm.trans h))
  · exact h2 (Option.some.inj (hc.symm.trans h))
  · exact h3 (Option.some.inj (hc.symm.trans h))
  · exact h4 (Option.some.inj (hc.symm.trans h))
  · exact h5 (Option.some.inj (hc.symm.trans h))
  · exact h6 (Option.some.inj (hc.symm.trans h))
  · exact h7 (Option.some.inj (hc.symm.trans h))

/-- Claim C8: when no `index.html` exists in the root directory at startup,
the server prints the warning naming the missing file, the current working
directory, and each immediate directory entry on a line of its own, then
still proceeds to the bind-and-serve phase (entering the accept loop when
the bind succeeds); when `index.html` exists, none of these diagnostic lines
appear in the output. -/
theorem index_html_diagnostics (port : Int) (env : Env) :
    (env.indexExists = false →
      (start_server port env).output =
        "警告: 当前目录中没有找到 index.html 文件" ::
        ("当前目录: " ++ env.cwd) ::
        "目录内容:" ::
        (env.entries.map (fun item => "  " ++ item) ++ (serve_phase port env).1) ∧
      (env.outcome = .interrupted → (start_server port env).enteredLoop = true)) ∧
    (env.indexExists = true →
      "警告: 当前目录中没有找到 index.html 文件" ∉ (start_server port env).output ∧
      ("当前目录: " ++ env.cwd) ∉ (start_server port env).output ∧
      "目录内容:" ∉ (start_server port env).output ∧
      ∀ item : String, ("  " ++ item) ∉ (start_server port env).output) := by
  constructor
  · intro hix
    constructor
    · simp [start_server, startup_diag, hix]
    · intro hout
      simp [start_server, serve_phase, hout]
  · intro hix
    have hout : (start_server port env).output = (serve_phase port env).1 := by
      simp [start_server, startup_diag, hix]
    rw [hout]
    refine ⟨?_, ?_, ?_, fun item => ?_⟩
    · exact not_in_serve_phase port env _ '警' (by decide) (by decide) (by decide)
        (by decide) (by decide) (by decide) (by decide) (by decide)
    · exact not_in_serve_phase port env _ '当'
        (head_of_append "当前目录: " env.cwd '当' (by decide)) (by decide) (by decide)
        (by decide) (by decide) (by decide) (by decide) (by decide)
    · exact not_in_serve_phase port env _ '目' (by decide) (by decide) (by decide)
        (by decide) (by decide) (by decide) (by decide) (by decide)
    · exact not_in_serve_phase port env _ ' '
        (head_of_append "  " item ' ' (by decide)) (by decide) (by decide)
        (by decide) (by decide) (by decide) (by decide) (by decide)

/-- Witness for C8 at concrete inputs: a run without `index.html` shows the
full diagnostic block before the banner, and a run with it shows none of the
diagnostic lines. -/
theorem index_html_diagnostics_witness :
    (start_server 8000
        { indexExists := false, cwd := "/srv/app", entries := ["a.png", "sub"],
          outcome := .interrupted }).output =
      "警告: 当前目录中没有找到 index.html 文件" ::
      "当前目录: /srv/app" ::
      "目录内容:" ::
      (["  a.png", "  sub"] ++
        (serve_phase 8000
          { indexExists := false, cwd := "/srv/app", entries := ["a.png", "sub"],
            outcome := .interrupted }).1) ∧
    "警告: 当前目录中没有找到 index.html 文件" ∉
      (start_server 8000
        { indexExists := true, cwd := "/srv/app", entries := ["a.png", "sub"],
          outcome := .interrupted }).output := by
  constructor
  · exact (index_html_diagnostics 8000
      { indexExists := false, cwd := "/srv/app", entries := ["a.png", "sub"],
        outcome := .interrupted }).1 rfl |>.1
  · exact ((index_html_diagnostics 8000
      { indexExists := true, cwd := "/srv/app", entries := ["a.png", "sub"],
        outcome := .interrupted }).2 rfl).1

/-- Process-wide state visible to the request handler: the working directory.
`server.py` contains no call that changes the working directory, so no
modelled operation alters it. -/
structure ProcState where
  cwd : String

/-- `CustomHTTPRequestHandler.__init__`, `server.py` lines 18-19: each
handler is constructed with `directory=os.getcwd()`, the process's working
directory at construction time. -/
def handler_directory (s : ProcState) : String := s.cwd

/-- One accepted connection: a handler is constructed (observing its root
directory) and the request is served; request handling only reads files and
returns the process state unchanged. -/
def handle_connection (s : ProcState) : String × ProcState :=
  (handler_directory s, s)

/-- The accept loop over `n` connections, threading the process state and
recording each connection's root directory. -/
def accept_loop (s : ProcState) : Nat → List String
  | 0 => []
  | n + 1 => (handle_connection s).1 :: accept_loop (handle_connection s).2 n

/-- Claim C9: the root directory served to every request equals the process's
working directory at startup — every connection handled during the server's
lifetime observes the same, unchanged value. -/
theorem root_directory_immutable (s : ProcState) (n : Nat) :
    ∀ d ∈ accept_loop s n, d = s.cwd := by
  induction n with
  | zero =>
      intro d hd
      cases hd
  | succ n ih =>
      intro d hd
      rcases List.mem_cons.mp hd with h | h
      · exact h
      · exact ih d h

/-- Witness for C9 at a concrete input: two connections served from
`/srv/app` both observe that root directory. -/
theorem root_directory_immutable_witness :
    "/srv/app" ∈ accept_loop ⟨"/srv/app"⟩ 2 ∧
    "/srv/app" = (⟨"/srv/app"⟩ : ProcState).cwd :=
  ⟨by decide, root_directory_immutable ⟨"/srv/app"⟩ 2 "/srv/app" (by decide)⟩

end Server
